import Mathlib

/-!
Shallow embedding of the payroll-functions core: the consistency validator
from `shared/validators/payroll_rules.py` and the numeric normalizer,
polling client and analyze entry points from `shared/di_reader.py`.
Python machine values are modelled by explicit inductive types, network
effects by response streams passed in as arguments, and the unbounded
`while True` poll loop by a fuel parameter.
-/

namespace Payroll

/-- An exact decimal number with value `num / 10 ^ exp`: the value model for
the Python ints, floats and decimal strings that appear in field values. -/
structure Dec where
  num : ℤ
  exp : ℕ
deriving DecidableEq

/-- The (positive) denominator `10 ^ exp` of a decimal value. -/
def Dec.den (d : Dec) : ℕ := 10 ^ d.exp

/-- A decimal with integer value `n`. -/
def Dec.ofInt (n : ℤ) : Dec := ⟨n, 0⟩

/-- Truncation toward zero, as Python `int(x)` applied to a float value. -/
def truncInt (d : Dec) : ℤ := Int.tdiv d.num (d.den : ℤ)

/-- Rounding to an integer with ties going away from zero, as Python
`Decimal.quantize(Decimal("1"), rounding=ROUND_HALF_UP)`. -/
def roundHalfUp (d : Dec) : ℤ :=
  let m : ℕ := (2 * d.num.natAbs + d.den) / (2 * d.den)
  if 0 ≤ d.num then (m : ℤ) else -(m : ℤ)

/-- A Python value sitting in the fields dict given to
`check_transfer_consistency`, as seen by its `to_dec` lambda:
`vNone` is Python `None` (replaced by `0` before conversion);
`vVal d` is a value whose `str()` form `Decimal` parses to the decimal `d`
and quantizes without error (ints, floats, numeric strings); `vBad` is a
value on which the conversion raises `InvalidOperation`, at the parse (for
example the string `"1,2a"`) or at the quantize (NaN, infinities). -/
inductive FieldVal where
  | vNone
  | vVal (d : Dec)
  | vBad
deriving DecidableEq

/-- The `to_dec` lambda of `check_transfer_consistency`:
`Decimal(str(0 if v is None else v)).quantize(Decimal("1"), ROUND_HALF_UP)`,
with `none` when the conversion raises `InvalidOperation`. -/
def to_dec : FieldVal → Option ℤ
  | .vNone => some 0
  | .vVal d => some (roundHalfUp d)
  | .vBad => none

/-- The four keys `check_transfer_consistency` reads from its input dict;
`none` models a key absent from the dict. -/
structure CheckInput where
  total_gross : Option FieldVal
  total_deduction : Option FieldVal
  other_payment : Option FieldVal
  transfer_amount : Option FieldVal
deriving DecidableEq

/-- Embeds `fields.get(key, 0)`: the stored value, or the int `0` when the key is
missing. -/
def getOr0 : Option FieldVal → FieldVal
  | some v => v
  | none => .vVal (Dec.ofInt 0)

/-- The dict component of `check_transfer_consistency`'s return value:
either the numeric-failure payload
`{"error": "invalid_number_format", "detail": ...}` or the success payload
`{"expected": e, "transfer": t, "diff": d}`. -/
inductive CheckPayload where
  | invalidNumberFormat
  | result (expected transfer diff : ℤ)
deriving DecidableEq

/-- Embeds `check_transfer_consistency` from `shared/validators/payroll_rules.py`:
convert the four fields with `to_dec` (any failure yields the
`invalid_number_format` payload), then compare `tg - td + op` with `tr`. -/
def check_transfer_consistency (fields : CheckInput) : Bool × CheckPayload :=
  match to_dec (getOr0 fields.total_gross), to_dec (getOr0 fields.total_deduction),
        to_dec (getOr0 fields.other_payment), to_dec (getOr0 fields.transfer_amount) with
  | some tg, some td, some op, some tr =>
      (decide (tg - td + op = tr), .result (tg - td + op) tr (tg - td + op - tr))
  | _, _, _, _ => (false, .invalidNumberFormat)

/-- Claim C1: when all four fields convert to decimals, the validator
returns `ok` true iff `gross - deduction + other` equals `transfer`
exactly, and the diagnostic carries `diff = (gross - deduction + other) -
transfer`, which is zero exactly when `ok` is true. -/
theorem transfer_consistency_exact (fields : CheckInput)
    (tg td op tr : ℤ)
    (htg : to_dec (getOr0 fields.total_gross) = some tg)
    (htd : to_dec (getOr0 fields.total_deduction) = some td)
    (hop : to_dec (getOr0 fields.other_payment) = some op)
    (htr : to_dec (getOr0 fields.transfer_amount) = some tr) :
    check_transfer_consistency fields =
      (decide (tg - td + op = tr), .result (tg - td + op) tr (tg - td + op - tr)) ∧
    ((check_transfer_consistency fields).1 = true ↔ tg - td + op = tr) ∧
    (tg - td + op - tr = 0 ↔ (check_transfer_consistency fields).1 = true) := by
  have h : check_transfer_consistency fields =
      (decide (tg - td + op = tr), .result (tg - td + op) tr (tg - td + op - tr)) := by
    unfold check_transfer_consistency
    rw [htg, htd, hop, htr]
  refine ⟨h, ?_, ?_⟩
  · rw [h]
    simp
  · rw [h]
    simp [sub_eq_zero]

/-- Closed instance of the claim-C1 theorem at the spec's example input
`{gross: 300000, deduction: 50000, other: 0, transfer: 250000}`. -/
theorem transfer_consistency_exact_witness :
    check_transfer_consistency
      ⟨some (.vVal (Dec.ofInt 300000)), some (.vVal (Dec.ofInt 50000)),
       some (.vVal (Dec.ofInt 0)), some (.vVal (Dec.ofInt 250000))⟩ =
      (decide ((300000 : ℤ) - 50000 + 0 = 250000),
        .result (300000 - 50000 + 0) 250000 (300000 - 50000 + 0 - 250000)) :=
  (transfer_consistency_exact _ 300000 50000 0 250000
    (by decide) (by decide) (by decide) (by decide)).1

/-- Claim C6: if converting any of the four field values fails, the
validator returns the numeric-failure shape `(false, invalid_number_format)`
without raising, and every result is exactly one of the two shapes:
numeric-failure, or numeric-success carrying `expected`, `transfer` and
`diff = expected - transfer` with `ok` deciding their equality. -/
theorem invalid_number_shape (fields : CheckInput) :
    ((to_dec (getOr0 fields.total_gross) = none ∨
      to_dec (getOr0 fields.total_deduction) = none ∨
      to_dec (getOr0 fields.other_payment) = none ∨
      to_dec (getOr0 fields.transfer_amount) = none) →
      check_transfer_consistency fields = (false, .invalidNumberFormat)) ∧
    (check_transfer_consistency fields = (false, .invalidNumberFormat) ∨
      ∃ e t : ℤ, check_transfer_consistency fields =
        (decide (e = t), .result e t (e - t))) := by
  constructor
  · intro h
    unfold check_transfer_consistency
    rcases h with h | h | h | h <;> rw [h] <;>
      rcases to_dec (getOr0 fields.total_gross) with _ | tg <;>
      rcases to_dec (getOr0 fields.total_deduction) with _ | td <;>
      rcases to_dec (getOr0 fields.other_payment) with _ | op <;>
      rcases to_dec (getOr0 fields.transfer_amount) with _ | tr <;> rfl
  · unfold check_transfer_consistency
    rcases to_dec (getOr0 fields.total_gross) with _ | tg <;>
      rcases to_dec (getOr0 fields.total_deduction) with _ | td <;>
      rcases to_dec (getOr0 fields.other_payment) with _ | op <;>
      rcases to_dec (getOr0 fields.transfer_amount) with _ | tr <;>
      first
        | exact Or.inl rfl
        | exact Or.inr ⟨tg - td + op, tr, rfl⟩

/-- Closed instance of the claim-C6 theorem: a malformed numeric value (the
spec's `"1,2a"` example) yields the numeric-failure shape. -/
theorem invalid_number_shape_witness :
    check_transfer_consistency
      ⟨some .vBad, some (.vVal (Dec.ofInt 50000)),
       some (.vVal (Dec.ofInt 0)), some (.vVal (Dec.ofInt 250000))⟩ =
      (false, .invalidNumberFormat) :=
  (invalid_number_shape _).1 (Or.inl (by decide))

/-- Replace a missing key, or a stored Python `None`, by the int `0` —
the substitution claim C10 says `check_transfer_consistency` performs. -/
def fillZero : Option FieldVal → Option FieldVal
  | none => some (.vVal (Dec.ofInt 0))
  | some .vNone => some (.vVal (Dec.ofInt 0))
  | some v => some v

/-- Claim C10: missing keys and `None` values are treated as the int `0`
(replacing them by `0` does not change the result), and on the empty dict
the validator returns `ok` true with `expected`, `transfer` and `diff` all
zero. -/
theorem missing_fields_default_zero :
    (∀ fields : CheckInput,
      check_transfer_consistency
        ⟨fillZero fields.total_gross, fillZero fields.total_deduction,
         fillZero fields.other_payment, fillZero fields.transfer_amount⟩ =
      check_transfer_consistency fields) ∧
    check_transfer_consistency ⟨none, none, none, none⟩ =
      (true, .result 0 0 0) := by
  have hfill : ∀ v : Option FieldVal, to_dec (getOr0 (fillZero v)) = to_dec (getOr0 v) := by
    intro v
    rcases v with _ | v
    · rfl
    · rcases v <;> rfl
  constructor
  · intro fields
    unfold check_transfer_consistency
    rw [hfill, hfill, hfill, hfill]
  · decide

/-- Closed instance of the claim-C10 theorem: filling a dict that misses
two keys and stores `None` in another leaves the result unchanged, and the
empty dict checks out consistent at all zeros. -/
theorem missing_fields_default_zero_witness :
    check_transfer_consistency
      ⟨fillZero none, fillZero (some .vNone),
       fillZero (some (.vVal (Dec.ofInt 5))), fillZero none⟩ =
      check_transfer_consistency
        ⟨none, some .vNone, some (.vVal (Dec.ofInt 5)), none⟩ ∧
    check_transfer_consistency ⟨none, none, none, none⟩ =
      (true, .result 0 0 0) :=
  ⟨missing_fields_default_zero.1 ⟨none, some .vNone, some (.vVal (Dec.ofInt 5)), none⟩,
   missing_fields_default_zero.2⟩

/-- Characters removed by Python `str.strip()`: ASCII whitespace plus the
common Unicode spaces (no-break space and ideographic space). -/
def isPySpace (c : Char) : Bool :=
  c == ' ' || c == '\t' || c == '\n' || c == '\r' ||
  c.toNat == 11 || c.toNat == 12 || c.toNat == 0xa0 || c.toNat == 0x3000

/-- Embeds `content.strip()` on a character list. -/
def pyStrip (s : List Char) : List Char :=
  ((s.dropWhile isPySpace).reverse.dropWhile isPySpace).reverse

/-- The translate table `str.maketrans("０１２３４５６７８９－", "0123456789-")`
of `_num_from_field`: full-width digits and full-width minus to ASCII;
every other character is left unchanged. -/
def zenToHan (c : Char) : Char :=
  if c = '０' then '0' else if c = '１' then '1' else if c = '２' then '2'
  else if c = '３' then '3' else if c = '４' then '4' else if c = '５' then '5'
  else if c = '６' then '6' else if c = '７' then '7' else if c = '８' then '8'
  else if c = '９' then '9' else if c = '－' then '-' else c

/-- The text sanitization of `_num_from_field`:
`content.strip().replace(",", "").translate(full-width table)` — strip
surrounding whitespace, remove half-width commas, map full-width digits and
minus to half-width. -/
def sanitize (s : List Char) : List Char :=
  ((pyStrip s).filter (fun c => !(c == ','))).map zenToHan

/-- ASCII decimal digit test. -/
def isAsciiDigit (c : Char) : Bool := '0' ≤ c && c ≤ '9'

/-- Value of an ASCII decimal digit. -/
def digitVal (c : Char) : ℕ := c.toNat - '0'.toNat

/-- The number denoted by a list of ASCII decimal digits. -/
def digitsToNat (l : List Char) : ℕ := l.foldl (fun a c => 10 * a + digitVal c) 0

/-- Python `float(s)` on the decimal-literal fragment: optional sign, an
integer part and/or a fractional part, optional exponent; `none` when
`float` raises `ValueError` so that `int(float(s))` fails. -/
def pyFloat (s : List Char) : Option Dec :=
  let sgnRest : Bool × List Char :=
    match s with
    | '+' :: t => (false, t)
    | '-' :: t => (true, t)
    | _ => (false, s)
  let neg := sgnRest.1
  let s1 := sgnRest.2
  let ip := s1.takeWhile isAsciiDigit
  let r1 := s1.dropWhile isAsciiDigit
  let fpRest : List Char × List Char :=
    match r1 with
    | '.' :: t => (t.takeWhile isAsciiDigit, t.dropWhile isAsciiDigit)
    | _ => ([], r1)
  let fp := fpRest.1
  let r2 := fpRest.2
  if ip = [] ∧ fp = [] then none
  else
    let mag : ℤ := (digitsToNat (ip ++ fp) : ℤ)
    let mantNum : ℤ := if neg then -mag else mag
    match r2 with
    | [] => some ⟨mantNum, fp.length⟩
    | c :: t =>
      if c == 'e' || c == 'E' then
        let esgnRest : Bool × List Char :=
          match t with
          | '+' :: u => (false, u)
          | '-' :: u => (true, u)
          | _ => (false, t)
        let eneg := esgnRest.1
        let t1 := esgnRest.2
        let ed := t1.takeWhile isAsciiDigit
        if ed = [] ∨ t1.dropWhile isAsciiDigit ≠ [] then none
        else if eneg then some ⟨mantNum, fp.length + digitsToNat ed⟩
        else some ⟨mantNum * ((10 : ℤ) ^ digitsToNat ed), fp.length⟩
      else none

/-- A Document Intelligence field object as read by `_num_from_field`:
`valueNumber` is `some d` when the key holds an int or float;
`valueCurrency` is `some d` when the key holds a dict whose `amount` is an
int or float (a missing or non-numeric entry at either place behaves like
absence and is `none`); `content` is the string under `"content"`. -/
structure RawField where
  valueNumber : Option Dec
  valueCurrency : Option Dec
  content : Option (List Char)
deriving DecidableEq

/-- Embeds `_num_from_field` from `shared/di_reader.py`; the argument is `none`
for a missing or `None` (falsy) field object. -/
def num_from_field : Option RawField → ℤ
  | none => 0
  | some f =>
    match f.valueNumber with
    | some d => truncInt d
    | none =>
      match f.valueCurrency with
      | some d => truncInt d
      | none =>
        match f.content with
        | some s =>
          match pyFloat (sanitize s) with
          | some d => truncInt d
          | none => 0
        | none => 0

/-- Claim C3: normalization is a priority cascade — a null/missing field
yields 0; a structured numeric value wins over everything else and its
integer truncation is returned; else a currency amount is truncated; else
text content is sanitized, parsed and truncated, with any parse failure
yielding 0; the function is total (never raises). -/
theorem num_from_field_cascade :
    (num_from_field none = 0) ∧
    (∀ (f : RawField) (d : Dec), f.valueNumber = some d →
      num_from_field (some f) = truncInt d) ∧
    (∀ (f : RawField) (d : Dec), f.valueNumber = none → f.valueCurrency = some d →
      num_from_field (some f) = truncInt d) ∧
    (∀ (f : RawField) (s : List Char),
      f.valueNumber = none → f.valueCurrency = none → f.content = some s →
      num_from_field (some f) =
        match pyFloat (sanitize s) with
        | some d => truncInt d
        | none => 0) ∧
    (∀ (f : RawField) (s : List Char),
      f.valueNumber = none → f.valueCurrency = none → f.content = some s →
      pyFloat (sanitize s) = none → num_from_field (some f) = 0) := by
  refine ⟨rfl, ?_, ?_, ?_, ?_⟩
  · intro f d h
    simp only [num_from_field, h]
  · intro f d h1 h2
    simp only [num_from_field, h1, h2]
  · intro f s h1 h2 h3
    simp only [num_from_field, h1, h2, h3]
  · intro f s h1 h2 h3 h4
    simp only [num_from_field, h1, h2, h3, h4]

/-- Closed instances of the claim-C3 theorem: the spec's normalizer
examples — a number 1500.0 (also overriding a text content), a currency
amount 2000, a parsed text `"2500"`, and the unparsable text `"abc"`. -/
theorem num_from_field_cascade_witness :
    num_from_field (some ⟨some ⟨15000, 1⟩, none, some ['9']⟩) = 1500 ∧
    num_from_field (some ⟨none, some (Dec.ofInt 2000), none⟩) = 2000 ∧
    num_from_field (some ⟨none, none, some ['2', '5', '0', '0']⟩) = 2500 ∧
    num_from_field (some ⟨none, none, some ['a', 'b', 'c']⟩) = 0 :=
  ⟨(num_from_field_cascade.2.1 ⟨some ⟨15000, 1⟩, none, some ['9']⟩ ⟨15000, 1⟩ rfl).trans
      (by decide),
   (num_from_field_cascade.2.2.1 ⟨none, some (Dec.ofInt 2000), none⟩ (Dec.ofInt 2000)
      rfl rfl).trans (by decide),
   (num_from_field_cascade.2.2.2.1 ⟨none, none, some ['2', '5', '0', '0']⟩
      ['2', '5', '0', '0'] rfl rfl rfl).trans (by decide),
   num_from_field_cascade.2.2.2.2 ⟨none, none, some ['a', 'b', 'c']⟩
      ['a', 'b', 'c'] rfl rfl rfl (by decide)⟩

/-- The spec's example content `"１，２３４"`: full-width digits separated
by a full-width comma (U+FF0C). -/
def fullwidthCommaContent : List Char := ['１', '，', '２', '３', '４']

/-- Claim C8 counterexample: normalizing the field whose text content is
`"１，２３４"` returns 0, not 1234 — `replace(",", "")` removes only the
half-width comma and the translate table does not map U+FF0C, so the parse
of `"1，234"` fails. -/
theorem fullwidth_separator_cex :
    num_from_field (some ⟨none, none, some fullwidthCommaContent⟩) ≠ 1234 ∧
    num_from_field (some ⟨none, none, some fullwidthCommaContent⟩) = 0 := by
  constructor <;> decide

/-- Claim C8 amended: full-width digits are mapped to half-width and
half-width comma separators are removed, so `"１,２３４"` normalizes to
1234, `" １２３４ "` (surrounding whitespace) to 1234 and `"－１２"`
(full-width minus) to -12; but a full-width comma separator is not removed,
so the spec's example `"１，２３４"` normalizes to 0. -/
theorem text_normalization_amended :
    num_from_field (some ⟨none, none, some ['１', ',', '２', '３', '４']⟩) = 1234 ∧
    num_from_field (some ⟨none, none, some [' ', '１', '２', '３', '４', ' ']⟩) = 1234 ∧
    num_from_field (some ⟨none, none, some ['－', '１', '２']⟩) = -12 ∧
    num_from_field (some ⟨none, none, some fullwidthCommaContent⟩) = 0 := by
  refine ⟨by decide, by decide, by decide, by decide⟩

/-- The named sub-fields read from `documents[0].fields`; `none` models a
key absent from the fields dict. -/
structure FieldsMap where
  total_gross : Option RawField
  total_deduction : Option RawField
  other_payment : Option RawField
  transfer_amount : Option RawField
deriving DecidableEq

/-- The empty fields dict `{}`. -/
def FieldsMap.empty : FieldsMap := ⟨none, none, none, none⟩

/-- One entry of `analyzeResult.documents`; `fields` is `none` when the
`"fields"` key is absent or null. -/
structure DocEntry where
  fields : Option FieldsMap
deriving DecidableEq

/-- The `analyzeResult` payload; `documents` is `none` when the
`"documents"` key is absent or null. -/
structure AnalyzeResult where
  documents : Option (List DocEntry)
deriving DecidableEq

/-- The JSON body of one poll response: the `"status"` string and the
`"analyzeResult"` payload, either possibly absent. -/
structure PollBody where
  status : Option String
  analyzeResult : Option AnalyzeResult
deriving DecidableEq

/-- One HTTP response to a poll GET: a non-2xx status code (on which
`raise_for_status` raises) or a 2xx JSON body with an optional
`Retry-After` header value. -/
inductive PollResp where
  | httpErr (code : ℕ)
  | ok (body : PollBody) (retryAfter : Option String)
deriving DecidableEq

/-- How `_poll_operation` leaves its loop: return of `body["analyzeResult"]`,
`RuntimeError` on a `failed`/`canceled` status (carrying the body),
`requests.HTTPError` from `raise_for_status`, or `KeyError` when a
successful body misses `"analyzeResult"`. -/
inductive PollOutcome where
  | success (result : AnalyzeResult)
  | opFailed (body : PollBody)
  | httpError (code : ℕ)
  | missingResult
deriving DecidableEq

/-- Embeds `str.isdigit` on the characters this model covers: ASCII and
full-width decimal digits. -/
def isPyDigit (c : Char) : Bool := isAsciiDigit c || ('０' ≤ c && c ≤ '９')

/-- Value of an ASCII or full-width decimal digit. -/
def pyDigitVal (c : Char) : ℕ :=
  if isAsciiDigit c then digitVal c else c.toNat - '０'.toNat

/-- Python `int(s)` on a nonempty all-digit string. -/
def pyIntOfDigits (l : List Char) : ℕ := l.foldl (fun a c => 10 * a + pyDigitVal c) 0

/-- The sleep duration after a non-terminal poll:
`int(retry) if retry and retry.isdigit() else 2`. -/
def waitOf : Option String → ℕ
  | none => 2
  | some s =>
    if s.data ≠ [] ∧ s.data.all isPyDigit = true then pyIntOfDigits s.data else 2

/-- Result of one iteration of the `while True` body of `_poll_operation`:
leave the loop with an outcome, or sleep `wait` seconds and poll again. -/
inductive PollStep where
  | done (outcome : PollOutcome)
  | next (wait : ℕ)
deriving DecidableEq

/-- One iteration of the `while True` body of `_poll_operation`:
`raise_for_status`, then branch on `body.get("status")`, honoring
`Retry-After` before the next poll. -/
def pollStep : PollResp → PollStep
  | .httpErr code => .done (.httpError code)
  | .ok body retry =>
    if body.status = some "succeeded" ∨ body.status = some "completed" then
      match body.analyzeResult with
      | some r => .done (.success r)
      | none => .done .missingResult
    else if body.status = some "failed" ∨ body.status = some "canceled" then
      .done (.opFailed body)
    else
      .next (waitOf retry)

/-- Embeds `_poll_operation` run against a stream of responses (`resp n` answers
the `n`-th poll GET), unfolded for at most `fuel` polls starting at poll
index `i`; `none` means the loop is still running after the fuel is spent.
On exit it reports the outcome, the total number of poll requests issued
(for a start at index 0), and the list of sleeps performed from index `i`. -/
def pollLoop (resp : ℕ → PollResp) : ℕ → ℕ → Option (PollOutcome × ℕ × List ℕ)
  | _, 0 => none
  | i, fuel + 1 =>
    match pollStep (resp i) with
    | .done o => some (o, i + 1, [])
    | .next w => (pollLoop resp (i + 1) fuel).map (fun r => (r.1, r.2.1, w :: r.2.2))

/-- A 2xx JSON poll response. -/
def isOkResp : PollResp → Bool
  | .httpErr _ => false
  | .ok _ _ => true

/-- A poll response whose status is one of the four terminal statuses. -/
def isTerminalResp : PollResp → Bool
  | .httpErr _ => false
  | .ok body _ =>
    decide (body.status = some "succeeded" ∨ body.status = some "completed" ∨
      body.status = some "failed" ∨ body.status = some "canceled")

/-- Unfolding of the loop body on a 2xx response. -/
theorem pollStep_ok (body : PollBody) (retry : Option String) :
    pollStep (.ok body retry) =
      if body.status = some "succeeded" ∨ body.status = some "completed" then
        match body.analyzeResult with
        | some r => PollStep.done (.success r)
        | none => PollStep.done .missingResult
      else if body.status = some "failed" ∨ body.status = some "canceled" then
        PollStep.done (.opFailed body)
      else PollStep.next (waitOf retry) := rfl

/-- A 2xx response with none of the four terminal statuses sleeps for the
`Retry-After`-derived duration and polls again. -/
theorem pollStep_next_of_nonterminal (body : PollBody) (retry : Option String)
    (h1 : body.status ≠ some "succeeded") (h2 : body.status ≠ some "completed")
    (h3 : body.status ≠ some "failed") (h4 : body.status ≠ some "canceled") :
    pollStep (.ok body retry) = .next (waitOf retry) := by
  rw [pollStep_ok, if_neg (by tauto), if_neg (by tauto)]

/-- A terminal-status 2xx response makes the loop body leave the loop. -/
theorem pollStep_done_of_terminal (r : PollResp) (h : isTerminalResp r = true) :
    ∃ o, pollStep r = .done o := by
  cases r with
  | httpErr code => exact ⟨.httpError code, rfl⟩
  | ok body retry =>
    simp only [isTerminalResp, decide_eq_true_eq] at h
    rcases h with h | h | h | h
    · rw [pollStep_ok, h, if_pos (by decide)]
      cases body.analyzeResult with
      | some r2 => exact ⟨.success r2, rfl⟩
      | none => exact ⟨.missingResult, rfl⟩
    · rw [pollStep_ok, h, if_pos (by decide)]
      cases body.analyzeResult with
      | some r2 => exact ⟨.success r2, rfl⟩
      | none => exact ⟨.missingResult, rfl⟩
    · exact ⟨.opFailed body, by rw [pollStep_ok, h, if_neg (by decide), if_pos (by decide)]⟩
    · exact ⟨.opFailed body, by rw [pollStep_ok, h, if_neg (by decide), if_pos (by decide)]⟩

/-- A 2xx response that leaves the loop has a terminal status. -/
theorem pollStep_done_terminal (r : PollResp) (o : PollOutcome)
    (hok : isOkResp r = true) (h : pollStep r = .done o) :
    isTerminalResp r = true := by
  cases r with
  | httpErr code => simp [isOkResp] at hok
  | ok body retry =>
    by_contra hterm
    simp only [isTerminalResp, Bool.not_eq_true, decide_eq_false_iff_not] at hterm
    push_neg at hterm
    obtain ⟨h1, h2, h3, h4⟩ := hterm
    rw [pollStep_next_of_nonterminal body retry h1 h2 h3 h4] at h
    exact PollStep.noConfusion h

/-- If the first `n` responses keep the loop running and response `n` (in
absolute index, here reached from start `i` as `i + n`) leaves it with
outcome `o`, then with more than `n` polls of fuel the loop exits with `o`
after exactly `i + n + 1` requests. -/
theorem pollLoop_reach (resp : ℕ → PollResp) :
    ∀ (n i fuel : ℕ) (o : PollOutcome),
    (∀ j, j < n → ∃ w, pollStep (resp (i + j)) = .next w) →
    pollStep (resp (i + n)) = .done o →
    n < fuel →
    ∃ ws, pollLoop resp i fuel = some (o, i + n + 1, ws) := by
  intro n
  induction n with
  | zero =>
    intro i fuel o _ hdone hfuel
    obtain ⟨f, rfl⟩ : ∃ f, fuel = f + 1 := ⟨fuel - 1, by omega⟩
    refine ⟨[], ?_⟩
    simp only [pollLoop]
    rw [show i + 0 = i from rfl] at hdone
    rw [hdone]
  | succ n ih =>
    intro i fuel o hpre hdone hfuel
    obtain ⟨f, rfl⟩ : ∃ f, fuel = f + 1 := ⟨fuel - 1, by omega⟩
    obtain ⟨w, hw⟩ := hpre 0 (Nat.succ_pos n)
    rw [show i + 0 = i from rfl] at hw
    have hpre2 : ∀ j, j < n → ∃ w2, pollStep (resp (i + 1 + j)) = .next w2 := by
      intro j hj
      have := hpre (j + 1) (by omega)
      rwa [show i + (j + 1) = i + 1 + j by omega] at this
    have hdone2 : pollStep (resp (i + 1 + n)) = .done o := by
      rwa [show i + (n + 1) = i + 1 + n by omega] at hdone
    obtain ⟨ws, hws⟩ := ih (i + 1) f o hpre2 hdone2 (by omega)
    rw [show i + 1 + n + 1 = i + (n + 1) + 1 by omega] at hws
    refine ⟨w :: ws, ?_⟩
    simp only [pollLoop, hw, hws]
    rfl

/-- If the loop exits within its fuel, some response from index `i` on
left it, and under all-2xx responses that response has terminal status. -/
theorem pollLoop_some_terminal (resp : ℕ → PollResp)
    (hok : ∀ n, isOkResp (resp n) = true) :
    ∀ (fuel i : ℕ) (out : PollOutcome × ℕ × List ℕ),
    pollLoop resp i fuel = some out → ∃ n, isTerminalResp (resp n) = true := by
  intro fuel
  induction fuel with
  | zero => intro i out h; exact absurd h (by simp [pollLoop])
  | succ f ih =>
    intro i out h
    simp only [pollLoop] at h
    cases hstep : pollStep (resp i) with
    | done o =>
      exact ⟨i, pollStep_done_terminal (resp i) o (hok i) hstep⟩
    | next w =>
      rw [hstep] at h
      cases hrec : pollLoop resp (i + 1) f with
      | none => rw [hrec] at h; exact Option.noConfusion h
      | some out2 => exact ih (i + 1) out2 hrec

/-- Claim C9: under 2xx JSON responses, the poll loop terminates (by
returning or raising) for some finite fuel iff the response stream
eventually carries a terminal status (`succeeded`, `completed`, `failed`
or `canceled`); in particular a stream that never reaches a terminal
status keeps the loop running for every fuel bound. -/
theorem poll_termination_iff (resp : ℕ → PollResp)
    (hok : ∀ n, isOkResp (resp n) = true) :
    (∃ fuel out, pollLoop resp 0 fuel = some out) ↔
    (∃ n, isTerminalResp (resp n) = true) := by
  constructor
  · rintro ⟨fuel, out, h⟩
    exact pollLoop_some_terminal resp hok fuel 0 out h
  · intro hterm
    obtain ⟨m, hm, hmin⟩ : ∃ m, isTerminalResp (resp m) = true ∧
        ∀ j, j < m → isTerminalResp (resp j) = false := by
      refine ⟨Nat.find hterm, Nat.find_spec hterm, fun j hj => ?_⟩
      simpa using Nat.find_min hterm hj
    obtain ⟨o, ho⟩ := pollStep_done_of_terminal (resp m) hm
    have hpre : ∀ j, j < m → ∃ w, pollStep (resp (0 + j)) = .next w := by
      intro j hj
      have hjok := hok j
      have hjnt := hmin j hj
      rw [Nat.zero_add]
      cases hr : resp j with
      | httpErr code => rw [hr] at hjok; simp [isOkResp] at hjok
      | ok body retry =>
        rw [hr] at hjnt
        simp only [isTerminalResp, decide_eq_false_iff_not] at hjnt
        push_neg at hjnt
        obtain ⟨h1, h2, h3, h4⟩ := hjnt
        exact ⟨waitOf retry, pollStep_next_of_nonterminal body retry h1 h2 h3 h4⟩
    obtain ⟨ws, hws⟩ := pollLoop_reach resp m 0 (m + 1) o
      hpre (by rw [Nat.zero_add]; exact ho) (by omega)
    exact ⟨m + 1, _, hws⟩

/-- Closed instance of the claim-C9 theorem: a stream answering
`succeeded` at once terminates the loop at some fuel. -/
theorem poll_termination_iff_witness :
    ∃ fuel out,
      pollLoop (fun _ => .ok ⟨some "succeeded", some ⟨some []⟩⟩ none) 0 fuel = some out :=
  (poll_termination_iff (fun _ => .ok ⟨some "succeeded", some ⟨some []⟩⟩ none)
    (fun _ => rfl)).2 ⟨0, by decide⟩

/-- Claim C2: the poll loop returns the embedded `analyzeResult` on the
first response whose status is `succeeded` or `completed`, and raises the
operation-failure error carrying the full response body on the first
response whose status is `failed` or `canceled`; in either case it has
issued exactly `n + 1` poll requests when the terminal response is the
`n`-th (so `[running, running, succeeded]` takes exactly 3 requests and a
first `failed` raises after 1). -/
theorem poll_terminal_outcomes (resp : ℕ → PollResp) (n : ℕ)
    (body : PollBody) (retry : Option String)
    (hpre : ∀ i, i < n → ∃ w, pollStep (resp i) = .next w)
    (hn : resp n = .ok body retry) :
    ((body.status = some "succeeded" ∨ body.status = some "completed") →
      ∀ r, body.analyzeResult = some r →
      ∀ fuel, n < fuel →
      ∃ ws, pollLoop resp 0 fuel = some (.success r, n + 1, ws)) ∧
    ((body.status = some "failed" ∨ body.status = some "canceled") →
      ∀ fuel, n < fuel →
      ∃ ws, pollLoop resp 0 fuel = some (.opFailed body, n + 1, ws)) := by
  have hpre0 : ∀ j, j < n → ∃ w, pollStep (resp (0 + j)) = .next w := by
    intro j hj
    rw [Nat.zero_add]
    exact hpre j hj
  constructor
  · intro hst r hr fuel hfuel
    have hdone : pollStep (resp (0 + n)) = .done (.success r) := by
      rw [Nat.zero_add, hn, pollStep_ok, if_pos hst, hr]
    obtain ⟨ws, hws⟩ := pollLoop_reach resp n 0 fuel (.success r) hpre0 hdone hfuel
    rw [Nat.zero_add] at hws
    exact ⟨ws, hws⟩
  · intro hst fuel hfuel
    have hne : ¬(body.status = some "succeeded" ∨ body.status = some "completed") := by
      rcases hst with h | h <;> rw [h] <;> decide
    have hdone : pollStep (resp (0 + n)) = .done (.opFailed body) := by
      rw [Nat.zero_add, hn, pollStep_ok, if_neg hne, if_pos hst]
    obtain ⟨ws, hws⟩ := pollLoop_reach resp n 0 fuel (.opFailed body) hpre0 hdone hfuel
    rw [Nat.zero_add] at hws
    exact ⟨ws, hws⟩

/-- Demo stream for claim C2: statuses running, running, succeeded. -/
def demoSucceedStream : ℕ → PollResp :=
  fun i => if i < 2 then .ok ⟨some "running", none⟩ none
           else .ok ⟨some "succeeded", some ⟨some []⟩⟩ none

/-- Demo stream for claim C2: status failed at once. -/
def demoFailStream : ℕ → PollResp := fun _ => .ok ⟨some "failed", none⟩ none

/-- Closed instances of the claim-C2 theorem: the `[running, running,
succeeded]` stream exits successfully after exactly 3 requests, and the
immediately-`failed` stream raises after exactly 1. -/
theorem poll_terminal_outcomes_witness :
    (∃ ws, pollLoop demoSucceedStream 0 3 =
      some (.success ⟨some []⟩, 3, ws)) ∧
    (∃ ws, pollLoop demoFailStream 0 1 =
      some (.opFailed ⟨some "failed", none⟩, 1, ws)) := by
  constructor
  · exact (poll_terminal_outcomes demoSucceedStream 2 ⟨some "succeeded", some ⟨some []⟩⟩ none
      (fun i hi => ⟨2, by interval_cases i <;> decide⟩) (by decide)).1
      (Or.inl rfl) ⟨some []⟩ rfl 3 (by omega)
  · exact (poll_terminal_outcomes demoFailStream 0 ⟨some "failed", none⟩ none
      (fun i hi => absurd hi (by omega)) rfl).2 (Or.inl rfl) 1 (by omega)

/-- Claim C7: a non-terminal poll response makes the loop wait `waitOf
retry` seconds: the `Retry-After` value when that header is present and a
nonempty all-digit string, and the fixed default 2 in every other case
(header absent, or not a plain non-negative integer). -/
theorem retry_after_wait (body : PollBody) (retry : Option String) (w : ℕ)
    (h : pollStep (.ok body retry) = .next w) :
    w = waitOf retry ∧
    (∀ s, retry = some s → s.data ≠ [] → s.data.all isPyDigit = true →
      w = pyIntOfDigits s.data) ∧
    (retry = none → w = 2) ∧
    (∀ s, retry = some s → ¬(s.data ≠ [] ∧ s.data.all isPyDigit = true) → w = 2) := by
  have hw : w = waitOf retry := by
    rw [pollStep_ok] at h
    by_cases h1 : body.status = some "succeeded" ∨ body.status = some "completed"
    · rw [if_pos h1] at h
      rcases hx : body.analyzeResult with _ | r <;> rw [hx] at h <;> simp at h
    · rw [if_neg h1] at h
      by_cases h2 : body.status = some "failed" ∨ body.status = some "canceled"
      · rw [if_pos h2] at h
        exact PollStep.noConfusion h
      · rw [if_neg h2] at h
        injection h with h
        exact h.symm
  refine ⟨hw, ?_, ?_, ?_⟩
  · intro s hs hne hall
    rw [hw, hs]
    simp only [waitOf]
    rw [if_pos ⟨hne, hall⟩]
  · intro hs
    rw [hw, hs]
    rfl
  · intro s hs hcon
    rw [hw, hs]
    simp only [waitOf]
    rw [if_neg hcon]

/-- Closed instances of the claim-C7 theorem: `Retry-After: 5` waits 5,
a missing header waits the default 2, a non-numeric header waits 2. -/
theorem retry_after_wait_witness :
    ((5 : ℕ) = waitOf (some "5") ∧ (5 : ℕ) = pyIntOfDigits "5".data) ∧
    (2 : ℕ) = waitOf none ∧ (2 : ℕ) = waitOf (some "abc") :=
  ⟨⟨(retry_after_wait ⟨some "running", none⟩ (some "5") 5 (by decide)).1,
    (retry_after_wait ⟨some "running", none⟩ (some "5") 5 (by decide)).2.1
      "5" rfl (by decide) (by decide)⟩,
   (retry_after_wait ⟨some "running", none⟩ none 2 (by decide)).1,
   (retry_after_wait ⟨some "running", none⟩ (some "abc") 2 (by decide)).1⟩

/-- The module-level configuration of `shared/di_reader.py`:
`ENDPOINT = os.getenv("DI_ENDPOINT", "").rstrip("/")`, `KEY`, `MODEL_ID`,
each the empty string when its environment variable is unset or blank. -/
structure DIConfig where
  ENDPOINT : String
  KEY : String
  MODEL_ID : String
deriving DecidableEq

/-- The `_check_env` condition `not ENDPOINT or not KEY or not MODEL_ID`
under which `DIConfigError` is raised. -/
def envMissing (c : DIConfig) : Bool :=
  c.ENDPOINT == "" || c.KEY == "" || c.MODEL_ID == ""

/-- The response to the analyze POST: non-2xx (on which `raise_for_status`
raises) or 2xx with an optional `Operation-Location` header. -/
inductive SubmitResp where
  | httpErr (code : ℕ)
  | ok (operationLocation : Option String)
deriving DecidableEq

/-- The exceptions the analyze entry points can raise: `DIConfigError`
from `_check_env`, `requests.HTTPError` from the submission or a poll,
`KeyError` for a missing `Operation-Location` header or a missing
`analyzeResult` body key, and the `RuntimeError` of a failed/canceled
operation (carrying the poll body). -/
inductive AnalyzeError where
  | configError
  | submitHttpError (code : ℕ)
  | missingOperationLocation
  | pollHttpError (code : ℕ)
  | operationFailed (body : PollBody)
  | missingAnalyzeResult
deriving DecidableEq

/-- Embeds `(result.get("documents") or [{}])[0]`: the first document entry, or
an empty entry when the document list is absent, null or empty. -/
def firstDoc (r : AnalyzeResult) : DocEntry :=
  match r.documents with
  | none => ⟨none⟩
  | some [] => ⟨none⟩
  | some (d :: _) => d

/-- Embeds `... .get("fields") or {}`: the fields dict of the first document, or
the empty dict. -/
def fieldsOf (r : AnalyzeResult) : FieldsMap :=
  match (firstDoc r).fields with
  | none => FieldsMap.empty
  | some m => m

/-- The dict literal both analyze entry points return: the four canonical
keys, each normalized by `_num_from_field`. -/
def extractFields (r : AnalyzeResult) : List (String × ℤ) :=
  [("total_gross", num_from_field (fieldsOf r).total_gross),
   ("total_deduction", num_from_field (fieldsOf r).total_deduction),
   ("other_payment", num_from_field (fieldsOf r).other_payment),
   ("transfer_amount", num_from_field (fieldsOf r).transfer_amount)]

/-- Wrap a poll outcome the way the entry points surface it. -/
def finishAnalyze (out : PollOutcome × ℕ × List ℕ) :
    (Except AnalyzeError (List (String × ℤ))) × ℕ :=
  match out.1 with
  | .success r => (.ok (extractFields r), 1 + out.2.1)
  | .opFailed b => (.error (.operationFailed b), 1 + out.2.1)
  | .httpError code => (.error (.pollHttpError code), 1 + out.2.1)
  | .missingResult => (.error .missingAnalyzeResult, 1 + out.2.1)

/-- Embeds `analyze_pay_slip_from_bytes` from `shared/di_reader.py`, its network
effects indexed by the given submission response and poll-response stream:
`_check_env`, then the POST (raw bytes body), then `Operation-Location`,
then `_poll_operation`. Alongside the result it counts the HTTP requests
issued; the outer `none` means the poll loop outlived its fuel. -/
def analyze_pay_slip_from_bytes (cfg : DIConfig) (submitR : SubmitResp)
    (polls : ℕ → PollResp) (fuel : ℕ) :
    Option ((Except AnalyzeError (List (String × ℤ))) × ℕ) :=
  if envMissing cfg then some (.error .configError, 0)
  else
    match submitR with
    | .httpErr code => some (.error (.submitHttpError code), 1)
    | .ok none => some (.error .missingOperationLocation, 1)
    | .ok (some _) => (pollLoop polls 0 fuel).map finishAnalyze

/-- Embeds `analyze_pay_slip_from_url` from `shared/di_reader.py`: identical to
the bytes variant after the request is built (JSON `urlSource` body). -/
def analyze_pay_slip_from_url (cfg : DIConfig) (submitR : SubmitResp)
    (polls : ℕ → PollResp) (fuel : ℕ) :
    Option ((Except AnalyzeError (List (String × ℤ))) × ℕ) :=
  if envMissing cfg then some (.error .configError, 0)
  else
    match submitR with
    | .httpErr code => some (.error (.submitHttpError code), 1)
    | .ok none => some (.error .missingOperationLocation, 1)
    | .ok (some _) => (pollLoop polls 0 fuel).map finishAnalyze

/-- Claim C5: with any of the three configuration values empty, both entry
variants raise the dedicated configuration error having made zero network
requests, and that error is a constructor distinct from every
network/service error. -/
theorem config_error_before_network (cfg : DIConfig) (submitR : SubmitResp)
    (polls : ℕ → PollResp) (fuel : ℕ)
    (h : cfg.ENDPOINT = "" ∨ cfg.KEY = "" ∨ cfg.MODEL_ID = "") :
    analyze_pay_slip_from_bytes cfg submitR polls fuel =
      some (.error .configError, 0) ∧
    analyze_pay_slip_from_url cfg submitR polls fuel =
      some (.error .configError, 0) ∧
    (∀ code, AnalyzeError.configError ≠ .submitHttpError code ∧
      AnalyzeError.configError ≠ .pollHttpError code) ∧
    (∀ body, AnalyzeError.configError ≠ .operationFailed body) := by
  have hmiss : envMissing cfg = true := by
    unfold envMissing
    rcases h with h | h | h <;> rw [h] <;> simp
  refine ⟨?_, ?_, ?_, ?_⟩
  · unfold analyze_pay_slip_from_bytes
    rw [hmiss]
    rfl
  · unfold analyze_pay_slip_from_url
    rw [hmiss]
    rfl
  · intro code
    exact ⟨AnalyzeError.noConfusion, AnalyzeError.noConfusion⟩
  · intro body
    exact AnalyzeError.noConfusion

/-- Closed instance of the claim-C5 theorem: with a blank endpoint both
variants return the configuration error at request count zero. -/
theorem config_error_before_network_witness :
    analyze_pay_slip_from_bytes ⟨"", "key", "model"⟩ (.ok (some "opurl"))
      (fun _ => .ok ⟨some "succeeded", some ⟨some []⟩⟩ none) 5 =
      some (.error .configError, 0) ∧
    analyze_pay_slip_from_url ⟨"", "key", "model"⟩ (.ok (some "opurl"))
      (fun _ => .ok ⟨some "succeeded", some ⟨some []⟩⟩ none) 5 =
      some (.error .configError, 0) :=
  ⟨(config_error_before_network ⟨"", "key", "model"⟩ (.ok (some "opurl"))
      (fun _ => .ok ⟨some "succeeded", some ⟨some []⟩⟩ none) 5 (Or.inl rfl)).1,
   (config_error_before_network ⟨"", "key", "model"⟩ (.ok (some "opurl"))
      (fun _ => .ok ⟨some "succeeded", some ⟨some []⟩⟩ none) 5 (Or.inl rfl)).2.1⟩

/-- The four canonical keys, in output order. -/
def canonicalKeys : List String :=
  ["total_gross", "total_deduction", "other_payment", "transfer_amount"]

/-- Claim C4: every successful result of either entry variant is a dict
with exactly the four canonical keys, and a poller result whose document
list is empty or absent maps to all four values 0 — surfaced by the entry
point as a successful all-zero dict, never an error. -/
theorem canonical_fields_shape :
    (∀ cfg submitR polls fuel out k,
      analyze_pay_slip_from_bytes cfg submitR polls fuel = some (.ok out, k) →
      out.map Prod.fst = canonicalKeys) ∧
    (∀ cfg submitR polls fuel out k,
      analyze_pay_slip_from_url cfg submitR polls fuel = some (.ok out, k) →
      out.map Prod.fst = canonicalKeys) ∧
    (∀ r : AnalyzeResult, r.documents = none ∨ r.documents = some [] →
      extractFields r =
        [("total_gross", 0), ("total_deduction", 0),
         ("other_payment", 0), ("transfer_amount", 0)]) := by
  have hkeys : ∀ r : AnalyzeResult, (extractFields r).map Prod.fst = canonicalKeys := by
    intro r
    rfl
  have hmain : ∀ (polls : ℕ → PollResp) (fuel : ℕ)
      (out : List (String × ℤ)) (k : ℕ),
      (pollLoop polls 0 fuel).map finishAnalyze = some (.ok out, k) →
      out.map Prod.fst = canonicalKeys := by
    intro polls fuel out k h
    rw [Option.map_eq_some'] at h
    obtain ⟨out2, _, h2⟩ := h
    unfold finishAnalyze at h2
    split at h2 <;> simp only [Prod.mk.injEq] at h2
    · rw [← Except.ok.inj h2.1]
      exact hkeys _
    · exact absurd h2.1 (by simp)
    · exact absurd h2.1 (by simp)
    · exact absurd h2.1 (by simp)
  refine ⟨?_, ?_, ?_⟩
  · intro cfg submitR polls fuel out k h
    unfold analyze_pay_slip_from_bytes at h
    split at h
    · simp only [Option.some.injEq, Prod.mk.injEq] at h
      exact absurd h.1 (by simp)
    · split at h
      · simp only [Option.some.injEq, Prod.mk.injEq] at h
        exact absurd h.1 (by simp)
      · simp only [Option.some.injEq, Prod.mk.injEq] at h
        exact absurd h.1 (by simp)
      · exact hmain polls fuel out k h
  · intro cfg submitR polls fuel out k h
    unfold analyze_pay_slip_from_url at h
    split at h
    · simp only [Option.some.injEq, Prod.mk.injEq] at h
      exact absurd h.1 (by simp)
    · split at h
      · simp only [Option.some.injEq, Prod.mk.injEq] at h
        exact absurd h.1 (by simp)
      · simp only [Option.some.injEq, Prod.mk.injEq] at h
        exact absurd h.1 (by simp)
      · exact hmain polls fuel out k h
  · intro r hr
    rcases hr with hr | hr <;>
      · unfold extractFields fieldsOf firstDoc
        rw [hr]
        rfl

/-- Closed instances of the claim-C4 theorem: a one-document success run
of each variant carries exactly the four keys, and the empty and the
absent document list both normalize to all zeros. -/
theorem canonical_fields_shape_witness :
    ([("total_gross", (0 : ℤ)), ("total_deduction", 0),
      ("other_payment", 0), ("transfer_amount", 0)].map Prod.fst = canonicalKeys) ∧
    extractFields ⟨some []⟩ =
      [("total_gross", 0), ("total_deduction", 0),
       ("other_payment", 0), ("transfer_amount", 0)] ∧
    extractFields ⟨none⟩ =
      [("total_gross", 0), ("total_deduction", 0),
       ("other_payment", 0), ("transfer_amount", 0)] :=
  ⟨canonical_fields_shape.1 ⟨"e", "k", "m"⟩ (.ok (some "opurl"))
      (fun _ => .ok ⟨some "succeeded", some ⟨none⟩⟩ none) 1
      [("total_gross", 0), ("total_deduction", 0),
       ("other_payment", 0), ("transfer_amount", 0)] 2 rfl,
   canonical_fields_shape.2.2 ⟨some []⟩ (Or.inr rfl),
   canonical_fields_shape.2.2 ⟨none⟩ (Or.inl rfl)⟩

end Payroll
